import Mathlib

/-!
Shallow embedding of the resilient upstream-call layer of the UserEvents
gateway.

Sources embedded here:
* utils/upstream.js — module-level circuit-breaker state, the sliding
  failure window (pruneFailures / recordFailure / recordSuccess) and the
  upstream(path, init, fastify, opts) entry point: breaker short-circuit
  gate, half-open probe slot, and the bounded retry loop with exponential
  backoff (the per-attempt try/catch/finally).
* services/index.js — the /getEventsByUserId/:id fan-out: chunked bulk
  dispatch for event lists longer than 50 and per-item dispatch (with
  Promise.allSettled) for lists of at most 50.

Times are in milliseconds, modelled as Nat (Date.now()).  JS Math.ceil on
a millisecond difference divided by 1000 is modelled exactly on Int.
Each network attempt of a call is modelled by the pair (completion time,
outcome); the outcome carries the information the catch-clause inspects:
a successful JSON payload, an ok response whose res.json() then rejects
(the success bookkeeping has already run when the rejection is caught),
an HTTP error status (err.statusCode), an AbortError from the
per-attempt timeout, or any other error (no statusCode, not an abort).
-/

namespace UserEvents

/-- Constant DEFAULT_TIMEOUT_MS of utils/upstream.js. -/
def DEFAULT_TIMEOUT_MS : Nat := 2000

/-- Constant MAX_RETRIES of utils/upstream.js. -/
def MAX_RETRIES : Nat := 2

/-- Constant BACKOFF_FACTOR of utils/upstream.js. -/
def BACKOFF_FACTOR : Nat := 2

/-- Constant FAILURE_WINDOW_MS of utils/upstream.js. -/
def FAILURE_WINDOW_MS : Nat := 30000

/-- Constant FAILURE_THRESHOLD of utils/upstream.js. -/
def FAILURE_THRESHOLD : Nat := 3

/-- Constant OPEN_COOLDOWN_MS of utils/upstream.js. -/
def OPEN_COOLDOWN_MS : Nat := 30000

/-- Constant HALF_OPEN_PROBE_INTERVAL_MS of utils/upstream.js. -/
def HALF_OPEN_PROBE_INTERVAL_MS : Nat := 5000

/-- The STATE enum of utils/upstream.js. -/
inductive CState
  | CLOSED
  | OPEN
  | HALF_OPEN
deriving DecidableEq

/-- The module-level mutable breaker state of utils/upstream.js:
state, failureTimes, openUntil, nextProbeAt, probeInFlight. -/
structure Breaker where
  state : CState
  failureTimes : List Nat
  openUntil : Nat
  nextProbeAt : Nat
  probeInFlight : Bool
deriving DecidableEq

/-- The initial module-level state (state = CLOSED, failureTimes = [],
openUntil = 0, nextProbeAt = 0, probeInFlight = false). -/
def initBreaker : Breaker :=
  { state := .CLOSED
    failureTimes := []
    openUntil := 0
    nextProbeAt := 0
    probeInFlight := false }

/-- pruneFailures(ts): keep only timestamps t with t >= ts - FAILURE_WINDOW_MS.
Nat subtraction truncates at 0, matching the JS comparison against a
possibly negative cutoff (everything is kept in that case). -/
def pruneFailures (l : List Nat) (ts : Nat) : List Nat :=
  l.filter (fun t => decide (ts - FAILURE_WINDOW_MS ≤ t))

/-- recordFailure(ts): prune, push ts, and if the breaker is CLOSED and the
window now holds at least FAILURE_THRESHOLD failures, transition to OPEN
with openUntil = ts + OPEN_COOLDOWN_MS. -/
def recordFailure (b : Breaker) (ts : Nat) : Breaker :=
  let l := pruneFailures b.failureTimes ts ++ [ts]
  if b.state = .CLOSED ∧ FAILURE_THRESHOLD ≤ l.length then
    { b with failureTimes := l, state := .OPEN, openUntil := ts + OPEN_COOLDOWN_MS }
  else
    { b with failureTimes := l }

/-- recordSuccess(): clear the failure history and reset every breaker
field (state := CLOSED, openUntil := 0, nextProbeAt := 0,
probeInFlight := false). -/
def recordSuccess (_b : Breaker) : Breaker :=
  { state := .CLOSED
    failureTimes := []
    openUntil := 0
    nextProbeAt := 0
    probeInFlight := false }

/-- The reason attached to each error the upstream helper throws:
the OPEN short-circuit, the HALF_OPEN gate, or the final
serviceUnavailable thrown by the retry loop. -/
inductive Reason
  | circuitOpen
  | circuitHalfOpen
  | unavailable
deriving DecidableEq

/-- An error thrown by upstream(): a fastify serviceUnavailable error
(statusCode 503) with its Retry-After header value and the throw site. -/
structure UErr where
  statusCode : Nat
  retryAfter : Int
  reason : Reason
deriving DecidableEq

/-- Math.ceil(x / 1000) on an integer count of milliseconds:
floor division of x + 999 by 1000 (Int.ediv floors for the positive
divisor 1000, so this is the exact ceiling for every sign of x). -/
def ceilDiv1000 (x : Int) : Int :=
  Int.ediv (x + 999) 1000

/-- Outcome of the breaker short-circuit section at the top of upstream():
either an error is thrown (the call is rejected before any network I/O)
or control reaches the retry loop. -/
inductive GateOutcome
  | rejected (e : UErr)
  | proceed
deriving DecidableEq

/-- Whether a gate outcome is a rejection. -/
def isRejected : GateOutcome → Bool
  | .rejected _ => true
  | .proceed => false

/-- The HALF_OPEN section of upstream() (lines 204-214): reject when a
probe is in flight or ts < nextProbeAt, with Retry-After
Math.ceil((nextProbeAt - ts)/1000); otherwise acquire the probe slot
(probeInFlight := true, nextProbeAt := ts + HALF_OPEN_PROBE_INTERVAL_MS). -/
def halfOpenGate (b : Breaker) (ts : Nat) : Breaker × GateOutcome :=
  if b.probeInFlight = true ∨ ts < b.nextProbeAt then
    (b, .rejected ⟨503, ceilDiv1000 ((b.nextProbeAt : Int) - (ts : Int)), .circuitHalfOpen⟩)
  else
    ({ b with probeInFlight := true, nextProbeAt := ts + HALF_OPEN_PROBE_INTERVAL_MS },
     .proceed)

/-- The breaker short-circuit section of upstream() (lines 192-214): in
OPEN, either reject with Retry-After Math.ceil((openUntil - ts)/1000)
when ts < openUntil, or transition to HALF_OPEN with nextProbeAt := ts
and fall through to the HALF_OPEN section; in HALF_OPEN run the probe
gate; in CLOSED proceed. -/
def gate (b : Breaker) (ts : Nat) : Breaker × GateOutcome :=
  if b.state = .OPEN then
    if b.openUntil ≤ ts then
      halfOpenGate { b with state := .HALF_OPEN, nextProbeAt := ts } ts
    else
      (b, .rejected ⟨503, ceilDiv1000 ((b.openUntil : Int) - (ts : Int)), .circuitOpen⟩)
  else if b.state = .HALF_OPEN then
    halfOpenGate b ts
  else
    (b, .proceed)

/-- What one attempt of the retry loop observed: fetch resolved ok and
res.json() gave a payload; fetch resolved ok but res.json() then
rejected (this happens after the success bookkeeping of lines 238-242
has run, and the rejection reaches the catch clause as an error with no
statusCode); fetch resolved with !res.ok and statusCode res.status was
thrown; the per-attempt timer fired (AbortError); or some other error
without a statusCode was thrown before the ok check. -/
inductive AttemptResult
  | success (payload : Nat)
  | jsonError
  | httpError (status : Nat)
  | timeoutAbort
  | otherError
deriving DecidableEq

/-- The transient classification of the catch clause:
err.name === 'AbortError' || (err.statusCode && err.statusCode >= 500). -/
def transient : AttemptResult → Bool
  | .timeoutAbort => true
  | .httpError s => decide (500 ≤ s)
  | _ => false

/-- The finally clause of each attempt (lines 275-279): if the breaker is
HALF_OPEN, clear probeInFlight. -/
def finallyStep (b : Breaker) : Breaker :=
  if b.state = .HALF_OPEN then { b with probeInFlight := false } else b

/-- The success bookkeeping of the retry loop (lines 238-242): a
HALF_OPEN success calls recordSuccess(), any other success calls
pruneFailures() at the success time. -/
def onSuccess (b : Breaker) (ts : Nat) : Breaker :=
  if b.state = .HALF_OPEN then recordSuccess b
  else { b with failureTimes := pruneFailures b.failureTimes ts }

/-- The final-failure bookkeeping of the retry loop (lines 255-263):
recordFailure at the failure time, then, if the breaker is HALF_OPEN,
re-open it (state := OPEN, probeInFlight := false,
openUntil := ts + OPEN_COOLDOWN_MS). -/
def onFinalFailure (b : Breaker) (ts : Nat) : Breaker :=
  let b1 := recordFailure b ts
  if b1.state = .HALF_OPEN then
    { b1 with
      state := .OPEN
      probeInFlight := false
      openUntil := ts + OPEN_COOLDOWN_MS }
  else b1

/-- The error thrown on the final-failure path (lines 265-267):
serviceUnavailable with Retry-After = Math.ceil(OPEN_COOLDOWN_MS/1000). -/
def unavailableErr : UErr :=
  ⟨503, ceilDiv1000 (OPEN_COOLDOWN_MS : Int), .unavailable⟩

/-- Result of a call to upstream(): the returned payload, the thrown
error, or the unreachable fall-through of the attempt loop (the loop
always returns or throws within MAX_RETRIES + 1 attempts; the
incomplete constructor only pads the fuel-based recursion). -/
inductive CallRes
  | ok (v : Nat)
  | err (e : UErr)
  | incomplete
deriving DecidableEq

/-- Observable outcome of one logical upstream() call: the final breaker
state, the result, the backoff delays slept (in order), how many times
recordFailure ran, how many times the success bookkeeping ran, and how
many network attempts (fetch invocations) were made. -/
structure CallOut where
  breaker : Breaker
  result : CallRes
  delays : List Nat
  failureReports : Nat
  successReports : Nat
  networkAttempts : Nat
deriving DecidableEq

/-- The retry loop of upstream() (lines 217-280), one iteration per
attempt index starting at 1.  attempts i = (completion time, outcome) of
the i-th fetch.  On an ok response the success bookkeeping (lines
238-242) runs before res.json(); if res.json() then rejects (jsonError),
the catch clause sees an error with no statusCode — permanent — so the
final-failure bookkeeping also runs in the same attempt and the
serviceUnavailable error is thrown (both bookkeepings are modelled at
the attempt's completion time).  A transient failure that is not the
last allowed attempt sleeps 100 * BACKOFF_FACTOR ^ (attempt - 1) and
retries after the finally clause runs; any other failure runs the
failure bookkeeping and throws the serviceUnavailable error.  The fuel
argument is MAX_RETRIES + 1 at the top-level call and only bounds the
recursion. -/
def runAttempts (attempts : Nat → Nat × AttemptResult) :
    Nat → Nat → Breaker → CallOut
  | 0, _, b =>
    { breaker := b
      result := .incomplete
      delays := []
      failureReports := 0
      successReports := 0
      networkAttempts := 0 }
  | fuel + 1, idx, b =>
    let (ts, r) := attempts idx
    match r with
    | .success v =>
      { breaker := finallyStep (onSuccess b ts)
        result := .ok v
        delays := []
        failureReports := 0
        successReports := 1
        networkAttempts := 1 }
    | .jsonError =>
      { breaker := finallyStep (onFinalFailure (onSuccess b ts) ts)
        result := .err unavailableErr
        delays := []
        failureReports := 1
        successReports := 1
        networkAttempts := 1 }
    | r =>
      if transient r = true ∧ ¬ MAX_RETRIES < idx then
        let delay := 100 * BACKOFF_FACTOR ^ (idx - 1)
        let rest := runAttempts attempts fuel (idx + 1) (finallyStep b)
        { breaker := rest.breaker
          result := rest.result
          delays := delay :: rest.delays
          failureReports := rest.failureReports
          successReports := rest.successReports
          networkAttempts := rest.networkAttempts + 1 }
      else
        { breaker := finallyStep (onFinalFailure b ts)
          result := .err unavailableErr
          delays := []
          failureReports := 1
          successReports := 0
          networkAttempts := 1 }

/-- One logical call to upstream() entered at time ts on breaker state b:
run the short-circuit gate; a rejection is thrown with no network
attempt, otherwise the retry loop runs with MAX_RETRIES + 1 attempts. -/
def upstreamCall (b : Breaker) (ts : Nat)
    (attempts : Nat → Nat × AttemptResult) : CallOut :=
  match gate b ts with
  | (b1, .rejected e) =>
    { breaker := b1
      result := .err e
      delays := []
      failureReports := 0
      successReports := 0
      networkAttempts := 0 }
  | (b1, .proceed) => runAttempts attempts (MAX_RETRIES + 1) 1 b1

/-- Constant smallEventSize of the /getEventsByUserId/:id route in
services/index.js. -/
def smallEventSize : Nat := 50

/-- The chunking loop of services/index.js (for i in steps of
smallEventSize: push user.events.slice(i, i + smallEventSize)),
written with the list length as recursion fuel; each step removes at
least one element, so the fuel never runs out on the top-level call. -/
def chunkAux (fuel : Nat) (l : List Nat) : List (List Nat) :=
  match fuel, l with
  | _, [] => []
  | 0, _ :: _ => []
  | f + 1, x :: xs =>
    (x :: xs).take smallEventSize :: chunkAux f ((x :: xs).drop smallEventSize)

/-- The chunked partition of an event-id list, as built by the route's
slice loop. -/
def chunk50 (l : List Nat) : List (List Nat) :=
  chunkAux l.length l

/-- Promise.all over the chunk calls: if every chunk call resolves, all
responses are collected in order; if any chunk call rejects, the whole
aggregation rejects (with the first rejection in chunk order).  Each
resolved chunk response is a list of entries, each entry either a truthy
event payload (some v) or a falsy entry (none). -/
def allChunks (respond : List Nat → Except UErr (List (Option Nat))) :
    List (List Nat) → Except UErr (List (List (Option Nat)))
  | [] => .ok []
  | c :: cs =>
    match respond c with
    | .error e => .error e
    | .ok r =>
      match allChunks respond cs with
      | .error e => .error e
      | .ok rs => .ok (r :: rs)

/-- The large-set path of /getEventsByUserId/:id (events.length > 50):
chunk, issue one upstream call per chunk via Promise.all, then
batchedResults.flat().filter(Boolean) — concatenate and keep only
truthy entries. -/
def getEventsLarge (events : List Nat)
    (respond : List Nat → Except UErr (List (Option Nat))) :
    Except UErr (List Nat) :=
  match allChunks respond (chunk50 events) with
  | .error e => .error e
  | .ok rs => .ok (rs.flatten.filterMap id)

/-- The small-set path of /getEventsByUserId/:id (events.length ≤ 50):
one upstream call per event id via Promise.allSettled, keep the
fulfilled results (in settlement order = input order) and drop the
rejected ones. -/
def getEventsSmall (events : List Nat) (call1 : Nat → Except UErr Nat) :
    List Nat :=
  (events.map call1).filterMap Except.toOption

/-- The /getEventsByUserId/:id route body after the getUserById fetch:
empty event list short-circuits to [], more than smallEventSize events
take the chunked path, otherwise the per-item path (which never
rejects). -/
def getEventsByUserId (events : List Nat)
    (respond : List Nat → Except UErr (List (Option Nat)))
    (call1 : Nat → Except UErr Nat) : Except UErr (List Nat) :=
  if events.length = 0 then .ok []
  else if smallEventSize < events.length then getEventsLarge events respond
  else .ok (getEventsSmall events call1)

/-- Sizes of the chunks the slice loop produces, as a function of the
input length alone (recursion mirror of chunkAux used to state the
120-identifier case for an arbitrary list of that length). -/
def lenChunks : Nat → Nat → List Nat
  | _, 0 => []
  | 0, _ + 1 => []
  | f + 1, n + 1 => min (n + 1) smallEventSize :: lenChunks f (n + 1 - smallEventSize)

theorem pruneFailures_eq_self (l : List Nat) (ts : Nat)
    (h : ∀ t ∈ l, ts - FAILURE_WINDOW_MS ≤ t) : pruneFailures l ts = l := by
  unfold pruneFailures
  rw [List.filter_eq_self]
  intro t ht
  exact decide_eq_true (h t ht)

theorem recordFailure_not_closed (b : Breaker) (ts : Nat) (h : b.state ≠ .CLOSED) :
    (recordFailure b ts).state = b.state
  ∧ (recordFailure b ts).openUntil = b.openUntil
  ∧ (recordFailure b ts).nextProbeAt = b.nextProbeAt
  ∧ (recordFailure b ts).probeInFlight = b.probeInFlight := by
  unfold recordFailure
  rw [if_neg (by intro hc; exact h hc.1)]
  exact ⟨rfl, rfl, rfl, rfl⟩

theorem foldl_recordFailure_open (l : List Nat) (b : Breaker) (h : b.state = .OPEN) :
    (l.foldl recordFailure b).state = .OPEN
  ∧ (l.foldl recordFailure b).openUntil = b.openUntil := by
  induction l generalizing b with
  | nil => exact ⟨h, rfl⟩
  | cons t l ih =>
    have hne : b.state ≠ .CLOSED := by rw [h]; intro hc; cases hc
    obtain ⟨h1, h2, _, _⟩ := recordFailure_not_closed b t hne
    have := ih (recordFailure b t) (by rw [h1, h])
    simp only [List.foldl_cons]
    exact ⟨this.1, by rw [this.2, h2]⟩

theorem recordFailure_closed_small (b : Breaker) (ts : Nat) (_hs : b.state = .CLOSED)
    (hlen : (pruneFailures b.failureTimes ts).length + 1 < FAILURE_THRESHOLD) :
    recordFailure b ts = { b with failureTimes := pruneFailures b.failureTimes ts ++ [ts] } := by
  unfold recordFailure
  rw [if_neg]
  intro hc
  have := hc.2
  simp only [List.length_append, List.length_cons, List.length_nil] at this
  omega

theorem recordFailure_closed_trip (b : Breaker) (ts : Nat) (hs : b.state = .CLOSED)
    (hlen : FAILURE_THRESHOLD ≤ (pruneFailures b.failureTimes ts).length + 1) :
    (recordFailure b ts).state = .OPEN
  ∧ (recordFailure b ts).openUntil = ts + OPEN_COOLDOWN_MS := by
  unfold recordFailure
  rw [if_pos]
  · exact ⟨rfl, rfl⟩
  · constructor
    · exact hs
    · simp only [List.length_append, List.length_cons, List.length_nil]
      omega

theorem gate_open_reject (b : Breaker) (ts : Nat) (hs : b.state = .OPEN)
    (hlt : ts < b.openUntil) :
    gate b ts =
      (b, .rejected ⟨503, ceilDiv1000 ((b.openUntil : Int) - (ts : Int)), .circuitOpen⟩) := by
  unfold gate
  rw [if_pos hs, if_neg (by omega)]

theorem upstreamCall_of_rejected (b b1 : Breaker) (ts : Nat)
    (f : Nat → Nat × AttemptResult) (e : UErr)
    (h : gate b ts = (b1, .rejected e)) :
    upstreamCall b ts f =
      { breaker := b1
        result := .err e
        delays := []
        failureReports := 0
        successReports := 0
        networkAttempts := 0 } := by
  unfold upstreamCall
  rw [h]

/-- Claim C1: from a fresh CLOSED breaker, any sequence of at least three
recorded failures whose first three timestamps are nondecreasing and lie
within the trailing FAILURE_WINDOW_MS window transitions the breaker to
OPEN at the third failure with openUntil = t3 + OPEN_COOLDOWN_MS (later
failures leave state and openUntil unchanged), and every call made at a
time ts < openUntil is rejected with statusCode 503, Retry-After
Math.ceil((openUntil - ts)/1000), zero backoff sleeps, zero breaker
reports and zero network attempts. -/
theorem claim_C1 (t1 t2 t3 ts : Nat) (rest : List Nat)
    (h12 : t1 ≤ t2) (h23 : t2 ≤ t3) (hwin : t3 ≤ t1 + FAILURE_WINDOW_MS)
    (hts : ts < t3 + OPEN_COOLDOWN_MS) :
    ((t1 :: t2 :: t3 :: rest).foldl recordFailure initBreaker).state = .OPEN
  ∧ ((t1 :: t2 :: t3 :: rest).foldl recordFailure initBreaker).openUntil
      = t3 + OPEN_COOLDOWN_MS
  ∧ ∀ f : Nat → Nat × AttemptResult,
      upstreamCall ((t1 :: t2 :: t3 :: rest).foldl recordFailure initBreaker) ts f =
        { breaker := (t1 :: t2 :: t3 :: rest).foldl recordFailure initBreaker
          result := .err ⟨503,
            ceilDiv1000 (((t3 + OPEN_COOLDOWN_MS : Nat) : Int) - (ts : Int)),
            .circuitOpen⟩
          delays := []
          failureReports := 0
          successReports := 0
          networkAttempts := 0 } := by
  have hW : FAILURE_WINDOW_MS = 30000 := rfl
  rw [hW] at hwin
  have e1 : recordFailure initBreaker t1 = { initBreaker with failureTimes := [t1] } := by
    have h := recordFailure_closed_small initBreaker t1 rfl
      (by simp [pruneFailures, FAILURE_THRESHOLD, initBreaker])
    simpa [pruneFailures, initBreaker] using h
  have p2 : pruneFailures [t1] t2 = [t1] := by
    apply pruneFailures_eq_self
    intro t ht
    simp only [List.mem_singleton] at ht
    subst ht
    rw [hW]
    omega
  have e2 : recordFailure { initBreaker with failureTimes := [t1] } t2 =
      { initBreaker with failureTimes := [t1, t2] } := by
    have h := recordFailure_closed_small { initBreaker with failureTimes := [t1] } t2 rfl
      (by rw [show ({ initBreaker with failureTimes := [t1] } : Breaker).failureTimes = [t1] from rfl,
              p2]; simp [FAILURE_THRESHOLD])
    rw [h]
    rw [show ({ initBreaker with failureTimes := [t1] } : Breaker).failureTimes = [t1] from rfl, p2]
    rfl
  have p3 : pruneFailures [t1, t2] t3 = [t1, t2] := by
    apply pruneFailures_eq_self
    intro t ht
    rw [hW]
    rcases List.mem_cons.mp ht with h | h
    · omega
    · simp only [List.mem_singleton] at h
      omega
  have trip := recordFailure_closed_trip { initBreaker with failureTimes := [t1, t2] } t3 rfl
    (by rw [show ({ initBreaker with failureTimes := [t1, t2] } : Breaker).failureTimes
              = [t1, t2] from rfl, p3]; simp [FAILURE_THRESHOLD])
  have hfold : (t1 :: t2 :: t3 :: rest).foldl recordFailure initBreaker =
      rest.foldl recordFailure
        (recordFailure { initBreaker with failureTimes := [t1, t2] } t3) := by
    simp only [List.foldl_cons, e1, e2]
  have hopen := foldl_recordFailure_open rest
    (recordFailure { initBreaker with failureTimes := [t1, t2] } t3) trip.1
  have hstate : ((t1 :: t2 :: t3 :: rest).foldl recordFailure initBreaker).state = .OPEN := by
    rw [hfold]; exact hopen.1
  have huntil : ((t1 :: t2 :: t3 :: rest).foldl recordFailure initBreaker).openUntil
      = t3 + OPEN_COOLDOWN_MS := by
    rw [hfold, hopen.2, trip.2]
  refine ⟨hstate, huntil, ?_⟩
  intro f
  have hrej := gate_open_reject ((t1 :: t2 :: t3 :: rest).foldl recordFailure initBreaker) ts
    hstate (by rw [huntil]; exact hts)
  rw [huntil] at hrej
  exact upstreamCall_of_rejected _ _ ts f _ hrej

/-- Witness for claim C1 at t1 = t2 = t3 = 70000, rest = [], ts = 70100:
the breaker opens until 100000 and the call at 70100 is rejected with
Retry-After 30. -/
theorem claim_C1_witness :
    (70000 ≤ 70000 ∧ 70000 ≤ 70000 ∧ 70000 ≤ 70000 + FAILURE_WINDOW_MS
      ∧ 70100 < 70000 + OPEN_COOLDOWN_MS)
  ∧ (([70000, 70000, 70000] : List Nat).foldl recordFailure initBreaker).state = .OPEN
  ∧ (([70000, 70000, 70000] : List Nat).foldl recordFailure initBreaker).openUntil
      = 70000 + OPEN_COOLDOWN_MS
  ∧ ∀ f : Nat → Nat × AttemptResult,
      upstreamCall (([70000, 70000, 70000] : List Nat).foldl recordFailure initBreaker) 70100 f =
        { breaker := ([70000, 70000, 70000] : List Nat).foldl recordFailure initBreaker
          result := .err ⟨503,
            ceilDiv1000 (((70000 + OPEN_COOLDOWN_MS : Nat) : Int) - ((70100 : Nat) : Int)),
            .circuitOpen⟩
          delays := []
          failureReports := 0
          successReports := 0
          networkAttempts := 0 } :=
  ⟨⟨by decide, by decide, by decide, by decide⟩,
    claim_C1 70000 70000 70000 70100 [] (by decide) (by decide) (by decide) (by decide)⟩

theorem gate_halfopen_proceed (b : Breaker) (ts : Nat) (hs : b.state = .HALF_OPEN)
    (hp : b.probeInFlight = false) (hn : b.nextProbeAt ≤ ts) :
    gate b ts =
      ({ b with probeInFlight := true, nextProbeAt := ts + HALF_OPEN_PROBE_INTERVAL_MS },
       .proceed) := by
  unfold gate halfOpenGate
  rw [if_neg (by rw [hs]; intro hc; cases hc), if_pos hs, if_neg]
  rw [hp]
  simp only [Bool.false_eq_true, false_or, not_lt]
  exact hn

/-- Claim C2 counterexample: after three failures at time 0 the breaker is
OPEN with openUntil = 30000; the very first call at ts = 30000 (the first
instant with now >= openUntil) is NOT rejected — it passes the gate as a
leading probe, leaving the breaker HALF_OPEN with probeInFlight = true
and nextProbeAt = 35000.  The claim asserts this call is rejected with a
CircuitOpenRejection. -/
theorem claim_C2_counterexample :
    isRejected (gate (recordFailure (recordFailure (recordFailure initBreaker 0) 0) 0) 30000).2
      = false
  ∧ (gate (recordFailure (recordFailure (recordFailure initBreaker 0) 0) 0) 30000).2
      = .proceed
  ∧ (gate (recordFailure (recordFailure (recordFailure initBreaker 0) 0) 0) 30000).1
      = ⟨.HALF_OPEN, [0, 0, 0], 30000, 35000, true⟩ := by
  decide

/-- Claim C2 (amended): when the breaker is OPEN and a call arrives with
now >= openUntil (and no probe is in flight), that call transitions the
breaker to HALF_OPEN setting nextProbeAt = now, immediately passes the
half-open gate as the leading probe, and only then schedules
nextProbeAt = now + HALF_OPEN_PROBE_INTERVAL_MS — so the first
post-cooldown call is allowed through as a probe, not rejected. -/
theorem claim_C2 (b : Breaker) (ts : Nat) (hs : b.state = .OPEN)
    (hc : b.openUntil ≤ ts) (hp : b.probeInFlight = false) :
    gate b ts =
      (⟨.HALF_OPEN, b.failureTimes, b.openUntil,
        ts + HALF_OPEN_PROBE_INTERVAL_MS, true⟩, .proceed) := by
  unfold gate halfOpenGate
  rw [if_pos hs, if_pos hc, if_neg]
  rw [show ({ b with state := .HALF_OPEN, nextProbeAt := ts } : Breaker).probeInFlight
        = b.probeInFlight from rfl, hp]
  simp

/-- Witness for claim C2 at the OPEN breaker with failure history
[0, 0, 0], openUntil = 30000, called at ts = 30000. -/
theorem claim_C2_witness :
    gate ⟨.OPEN, [0, 0, 0], 30000, 0, false⟩ 30000 =
      (⟨.HALF_OPEN, [0, 0, 0], 30000, 35000, true⟩, .proceed) :=
  claim_C2 ⟨.OPEN, [0, 0, 0], 30000, 0, false⟩ 30000 rfl (by decide) rfl

theorem runAttempts_success (f : Nat → Nat × AttemptResult) (fuel idx : Nat) (b : Breaker)
    (u v : Nat) (hf : f idx = (u, .success v)) :
    runAttempts f (fuel + 1) idx b =
      { breaker := finallyStep (onSuccess b u)
        result := .ok v
        delays := []
        failureReports := 0
        successReports := 1
        networkAttempts := 1 } := by
  simp only [runAttempts, hf]

theorem runAttempts_retry (f : Nat → Nat × AttemptResult) (fuel idx : Nat) (b : Breaker)
    (u : Nat) (r : AttemptResult) (hf : f idx = (u, r))
    (ht : transient r = true) (hidx : ¬ MAX_RETRIES < idx) :
    runAttempts f (fuel + 1) idx b =
      { breaker := (runAttempts f fuel (idx + 1) (finallyStep b)).breaker
        result := (runAttempts f fuel (idx + 1) (finallyStep b)).result
        delays := (100 * BACKOFF_FACTOR ^ (idx - 1))
          :: (runAttempts f fuel (idx + 1) (finallyStep b)).delays
        failureReports := (runAttempts f fuel (idx + 1) (finallyStep b)).failureReports
        successReports := (runAttempts f fuel (idx + 1) (finallyStep b)).successReports
        networkAttempts := (runAttempts f fuel (idx + 1) (finallyStep b)).networkAttempts + 1 } := by
  cases r with
  | success v => simp [transient] at ht
  | jsonError => simp [transient] at ht
  | httpError s =>
    simp only [runAttempts, hf]
    rw [if_pos ⟨ht, hidx⟩]
  | timeoutAbort =>
    simp only [runAttempts, hf]
    rw [if_pos ⟨ht, hidx⟩]
  | otherError => simp [transient] at ht

theorem runAttempts_final (f : Nat → Nat × AttemptResult) (fuel idx : Nat) (b : Breaker)
    (u : Nat) (r : AttemptResult) (hf : f idx = (u, r))
    (hns : ∀ v, r ≠ .success v) (hnj : r ≠ .jsonError)
    (h : transient r = false ∨ MAX_RETRIES < idx) :
    runAttempts f (fuel + 1) idx b =
      { breaker := finallyStep (onFinalFailure b u)
        result := .err unavailableErr
        delays := []
        failureReports := 1
        successReports := 0
        networkAttempts := 1 } := by
  have hcond : ¬ (transient r = true ∧ ¬ MAX_RETRIES < idx) := by
    rcases h with h | h
    · intro hc; rw [h] at hc; exact Bool.false_ne_true hc.1
    · intro hc; exact hc.2 h
  cases r with
  | success v => exact absurd rfl (hns v)
  | jsonError => exact absurd rfl hnj
  | httpError s =>
    simp only [runAttempts, hf]
    rw [if_neg hcond]
  | timeoutAbort =>
    simp only [runAttempts, hf]
    rw [if_neg hcond]
  | otherError =>
    simp only [runAttempts, hf]
    rw [if_neg hcond]

theorem runAttempts_jsonError (f : Nat → Nat × AttemptResult) (fuel idx : Nat)
    (b : Breaker) (u : Nat) (hf : f idx = (u, .jsonError)) :
    runAttempts f (fuel + 1) idx b =
      { breaker := finallyStep (onFinalFailure (onSuccess b u) u)
        result := .err unavailableErr
        delays := []
        failureReports := 1
        successReports := 1
        networkAttempts := 1 } := by
  simp only [runAttempts, hf]

theorem gate_closed (b : Breaker) (ts : Nat) (hs : b.state = .CLOSED) :
    gate b ts = (b, .proceed) := by
  unfold gate
  rw [if_neg (by rw [hs]; intro h; cases h), if_neg (by rw [hs]; intro h; cases h)]

theorem upstreamCall_of_proceed (b b1 : Breaker) (ts : Nat)
    (f : Nat → Nat × AttemptResult) (h : gate b ts = (b1, .proceed)) :
    upstreamCall b ts f = runAttempts f (MAX_RETRIES + 1) 1 b1 := by
  unfold upstreamCall
  rw [h]

/-- Claim C3: the catch clause classifies an attempt transient exactly
when it aborted on timeout or the upstream status was at least 500; a
permanent failure such as HTTP 400 is thrown with zero retries (no
backoff sleeps, exactly one network attempt); and a call whose attempts
1 and 2 fail transiently and whose attempt 3 succeeds sleeps 100 ms then
200 ms, returns the payload, and reports exactly one success and no
failure to the breaker. -/
theorem claim_C3 :
    (∀ r : AttemptResult, transient r = true ↔
      (r = .timeoutAbort ∨ ∃ s, r = .httpError s ∧ 500 ≤ s))
  ∧ (∀ t : Nat,
      (upstreamCall initBreaker 0 (fun _ => (t, .httpError 400))).delays = []
    ∧ (upstreamCall initBreaker 0 (fun _ => (t, .httpError 400))).networkAttempts = 1
    ∧ (upstreamCall initBreaker 0 (fun _ => (t, .httpError 400))).result = .err unavailableErr)
  ∧ (∀ (r1 r2 : AttemptResult) (u1 u2 u3 v : Nat),
      transient r1 = true → transient r2 = true →
      (upstreamCall initBreaker 0 (fun i =>
          if i = 1 then (u1, r1) else if i = 2 then (u2, r2) else (u3, .success v))).delays
        = [100, 200]
    ∧ (upstreamCall initBreaker 0 (fun i =>
          if i = 1 then (u1, r1) else if i = 2 then (u2, r2) else (u3, .success v))).result
        = .ok v
    ∧ (upstreamCall initBreaker 0 (fun i =>
          if i = 1 then (u1, r1) else if i = 2 then (u2, r2) else (u3, .success v))).successReports
        = 1
    ∧ (upstreamCall initBreaker 0 (fun i =>
          if i = 1 then (u1, r1) else if i = 2 then (u2, r2) else (u3, .success v))).failureReports
        = 0) := by
  refine ⟨?_, ?_, ?_⟩
  · intro r
    cases r with
    | success v => simp [transient]
    | jsonError => simp [transient]
    | httpError s => simp [transient]
    | timeoutAbort => simp [transient]
    | otherError => simp [transient]
  · intro t
    have hg := gate_closed initBreaker 0 rfl
    have e0 := upstreamCall_of_proceed initBreaker initBreaker 0
      (fun _ => (t, .httpError 400)) hg
    have e1 : runAttempts (fun _ => (t, .httpError 400)) (MAX_RETRIES + 1) 1 initBreaker =
        { breaker := finallyStep (onFinalFailure initBreaker t)
          result := .err unavailableErr
          delays := []
          failureReports := 1
          successReports := 0
          networkAttempts := 1 } :=
      runAttempts_final _ 2 1 initBreaker t (.httpError 400) rfl
        (by intro v h; cases h) (by intro h; cases h) (Or.inl rfl)
    rw [e0, e1]
    exact ⟨rfl, rfl, rfl⟩
  · intro r1 r2 u1 u2 u3 v h1 h2
    have hg := gate_closed initBreaker 0 rfl
    have e0 := upstreamCall_of_proceed initBreaker initBreaker 0
      (fun i => if i = 1 then (u1, r1) else if i = 2 then (u2, r2) else (u3, .success v)) hg
    have e3 : runAttempts (fun i =>
          if i = 1 then (u1, r1) else if i = 2 then (u2, r2) else (u3, .success v))
        1 3 (finallyStep (finallyStep initBreaker)) =
        { breaker := finallyStep (onSuccess (finallyStep (finallyStep initBreaker)) u3)
          result := .ok v
          delays := []
          failureReports := 0
          successReports := 1
          networkAttempts := 1 } :=
      runAttempts_success _ 0 3 _ u3 v rfl
    have e2 : runAttempts (fun i =>
          if i = 1 then (u1, r1) else if i = 2 then (u2, r2) else (u3, .success v))
        2 2 (finallyStep initBreaker) =
        { breaker := (runAttempts (fun i =>
            if i = 1 then (u1, r1) else if i = 2 then (u2, r2) else (u3, .success v))
            1 3 (finallyStep (finallyStep initBreaker))).breaker
          result := (runAttempts (fun i =>
            if i = 1 then (u1, r1) else if i = 2 then (u2, r2) else (u3, .success v))
            1 3 (finallyStep (finallyStep initBreaker))).result
          delays := (100 * BACKOFF_FACTOR ^ (2 - 1))
            :: (runAttempts (fun i =>
            if i = 1 then (u1, r1) else if i = 2 then (u2, r2) else (u3, .success v))
            1 3 (finallyStep (finallyStep initBreaker))).delays
          failureReports := (runAttempts (fun i =>
            if i = 1 then (u1, r1) else if i = 2 then (u2, r2) else (u3, .success v))
            1 3 (finallyStep (finallyStep initBreaker))).failureReports
          successReports := (runAttempts (fun i =>
            if i = 1 then (u1, r1) else if i = 2 then (u2, r2) else (u3, .success v))
            1 3 (finallyStep (finallyStep initBreaker))).successReports
          networkAttempts := (runAttempts (fun i =>
            if i = 1 then (u1, r1) else if i = 2 then (u2, r2) else (u3, .success v))
            1 3 (finallyStep (finallyStep initBreaker))).networkAttempts + 1 } :=
      runAttempts_retry _ 1 2 _ u2 r2 rfl h2 (by decide)
    have e1 : runAttempts (fun i =>
          if i = 1 then (u1, r1) else if i = 2 then (u2, r2) else (u3, .success v))
        (MAX_RETRIES + 1) 1 initBreaker =
        { breaker := (runAttempts (fun i =>
            if i = 1 then (u1, r1) else if i = 2 then (u2, r2) else (u3, .success v))
            2 2 (finallyStep initBreaker)).breaker
          result := (runAttempts (fun i =>
            if i = 1 then (u1, r1) else if i = 2 then (u2, r2) else (u3, .success v))
            2 2 (finallyStep initBreaker)).result
          delays := (100 * BACKOFF_FACTOR ^ (1 - 1))
            :: (runAttempts (fun i =>
            if i = 1 then (u1, r1) else if i = 2 then (u2, r2) else (u3, .success v))
            2 2 (finallyStep initBreaker)).delays
          failureReports := (runAttempts (fun i =>
            if i = 1 then (u1, r1) else if i = 2 then (u2, r2) else (u3, .success v))
            2 2 (finallyStep initBreaker)).failureReports
          successReports := (runAttempts (fun i =>
            if i = 1 then (u1, r1) else if i = 2 then (u2, r2) else (u3, .success v))
            2 2 (finallyStep initBreaker)).successReports
          networkAttempts := (runAttempts (fun i =>
            if i = 1 then (u1, r1) else if i = 2 then (u2, r2) else (u3, .success v))
            2 2 (finallyStep initBreaker)).networkAttempts + 1 } :=
      runAttempts_retry _ 2 1 _ u1 r1 rfl h1 (by decide)
    rw [e3] at e2
    rw [e2] at e1
    rw [e0, e1]
    refine ⟨by norm_num [BACKOFF_FACTOR], rfl, rfl, rfl⟩

/-- Witness for claim C3: attempts 1 and 2 are a timeout and an HTTP 503
(both transient), attempt 3 succeeds with payload 7. -/
theorem claim_C3_witness :
    transient .timeoutAbort = true ∧ transient (.httpError 503) = true
  ∧ (upstreamCall initBreaker 0 (fun i =>
        if i = 1 then (10, .timeoutAbort)
        else if i = 2 then (20, .httpError 503)
        else (30, .success 7))).delays = [100, 200]
  ∧ (upstreamCall initBreaker 0 (fun i =>
        if i = 1 then (10, .timeoutAbort)
        else if i = 2 then (20, .httpError 503)
        else (30, .success 7))).result = .ok 7
  ∧ (upstreamCall initBreaker 0 (fun i =>
        if i = 1 then (10, .timeoutAbort)
        else if i = 2 then (20, .httpError 503)
        else (30, .success 7))).successReports = 1
  ∧ (upstreamCall initBreaker 0 (fun i =>
        if i = 1 then (10, .timeoutAbort)
        else if i = 2 then (20, .httpError 503)
        else (30, .success 7))).failureReports = 0 :=
  ⟨by decide, by decide,
    claim_C3.2.2 .timeoutAbort (.httpError 503) 10 20 30 7 (by decide) (by decide)⟩

/-- Claim C4: on a HALF_OPEN breaker whose probe slot is free
(probeInFlight = false, nextProbeAt <= ts), a call whose first attempt
succeeds returns the payload and resets the breaker completely
(failure history cleared, state CLOSED, openUntil, nextProbeAt and
probeInFlight reset — the initial breaker value); a call whose first
attempt is a permanent failure re-opens the breaker with
openUntil = failure time + OPEN_COOLDOWN_MS and probeInFlight
cleared, throwing the serviceUnavailable error. -/
theorem claim_C4 (b : Breaker) (ts tv tf v : Nat)
    (hs : b.state = .HALF_OPEN) (hp : b.probeInFlight = false)
    (hn : b.nextProbeAt ≤ ts) :
    (upstreamCall b ts (fun _ => (tv, .success v))).breaker = initBreaker
  ∧ (upstreamCall b ts (fun _ => (tv, .success v))).result = .ok v
  ∧ (upstreamCall b ts (fun _ => (tf, .httpError 400))).breaker.state = .OPEN
  ∧ (upstreamCall b ts (fun _ => (tf, .httpError 400))).breaker.openUntil
      = tf + OPEN_COOLDOWN_MS
  ∧ (upstreamCall b ts (fun _ => (tf, .httpError 400))).breaker.probeInFlight = false
  ∧ (upstreamCall b ts (fun _ => (tf, .httpError 400))).result = .err unavailableErr := by
  have hg := gate_halfopen_proceed b ts hs hp hn
  have hb1s : ({ b with probeInFlight := true, nextProbeAt := ts + HALF_OPEN_PROBE_INTERVAL_MS } : Breaker).state = .HALF_OPEN := hs
  have eSucc := upstreamCall_of_proceed b _ ts (fun _ => (tv, .success v)) hg
  have eFail := upstreamCall_of_proceed b _ ts (fun _ => (tf, .httpError 400)) hg
  have s1 : runAttempts (fun _ => (tv, .success v)) (MAX_RETRIES + 1) 1 { b with probeInFlight := true, nextProbeAt := ts + HALF_OPEN_PROBE_INTERVAL_MS } =
      { breaker := finallyStep (onSuccess { b with probeInFlight := true, nextProbeAt := ts + HALF_OPEN_PROBE_INTERVAL_MS } tv)
        result := .ok v
        delays := []
        failureReports := 0
        successReports := 1
        networkAttempts := 1 } :=
    runAttempts_success _ 2 1 _ tv v rfl
  have f1 : runAttempts (fun _ => (tf, .httpError 400)) (MAX_RETRIES + 1) 1 { b with probeInFlight := true, nextProbeAt := ts + HALF_OPEN_PROBE_INTERVAL_MS } =
      { breaker := finallyStep (onFinalFailure { b with probeInFlight := true, nextProbeAt := ts + HALF_OPEN_PROBE_INTERVAL_MS } tf)
        result := .err unavailableErr
        delays := []
        failureReports := 1
        successReports := 0
        networkAttempts := 1 } :=
    runAttempts_final _ 2 1 _ tf (.httpError 400) rfl (by intro w h; cases h)
      (by intro h; cases h) (Or.inl rfl)
  have hsucc : finallyStep (onSuccess { b with probeInFlight := true, nextProbeAt := ts + HALF_OPEN_PROBE_INTERVAL_MS } tv) = initBreaker := by
    unfold onSuccess
    rw [if_pos hb1s]
    rfl
  have hrec := recordFailure_not_closed { b with probeInFlight := true, nextProbeAt := ts + HALF_OPEN_PROBE_INTERVAL_MS } tf (by rw [hb1s]; intro h; cases h)
  have ho : onFinalFailure { b with probeInFlight := true, nextProbeAt := ts + HALF_OPEN_PROBE_INTERVAL_MS } tf =
      { recordFailure { b with probeInFlight := true, nextProbeAt := ts + HALF_OPEN_PROBE_INTERVAL_MS } tf with state := .OPEN, probeInFlight := false, openUntil := tf + OPEN_COOLDOWN_MS } := by
    unfold onFinalFailure
    rw [if_pos (by rw [hrec.1]; exact hb1s)]
  have hff : finallyStep { recordFailure { b with probeInFlight := true, nextProbeAt := ts + HALF_OPEN_PROBE_INTERVAL_MS } tf with state := .OPEN, probeInFlight := false, openUntil := tf + OPEN_COOLDOWN_MS } =
      { recordFailure { b with probeInFlight := true, nextProbeAt := ts + HALF_OPEN_PROBE_INTERVAL_MS } tf with state := .OPEN, probeInFlight := false, openUntil := tf + OPEN_COOLDOWN_MS } := by
    unfold finallyStep
    rw [if_neg (by intro h; cases h)]
  rw [eSucc, s1, eFail, f1, hsucc, ho, hff]
  exact ⟨rfl, rfl, rfl, rfl, rfl, rfl⟩

/-- Witness for claim C4 on the HALF_OPEN breaker with failure history
[5, 6], probe slot free at ts = 100: a success at time 200 resets to the
initial breaker; a permanent failure at time 200 re-opens until 30200. -/
theorem claim_C4_witness :
    (upstreamCall ⟨.HALF_OPEN, [5, 6], 30000, 100, false⟩ 100
        (fun _ => (200, .success 9))).breaker = initBreaker
  ∧ (upstreamCall ⟨.HALF_OPEN, [5, 6], 30000, 100, false⟩ 100
        (fun _ => (200, .success 9))).result = .ok 9
  ∧ (upstreamCall ⟨.HALF_OPEN, [5, 6], 30000, 100, false⟩ 100
        (fun _ => (200, .httpError 400))).breaker.state = .OPEN
  ∧ (upstreamCall ⟨.HALF_OPEN, [5, 6], 30000, 100, false⟩ 100
        (fun _ => (200, .httpError 400))).breaker.openUntil = 200 + OPEN_COOLDOWN_MS
  ∧ (upstreamCall ⟨.HALF_OPEN, [5, 6], 30000, 100, false⟩ 100
        (fun _ => (200, .httpError 400))).breaker.probeInFlight = false
  ∧ (upstreamCall ⟨.HALF_OPEN, [5, 6], 30000, 100, false⟩ 100
        (fun _ => (200, .httpError 400))).result = .err unavailableErr :=
  claim_C4 ⟨.HALF_OPEN, [5, 6], 30000, 100, false⟩ 100 200 200 9 rfl rfl (by decide)

theorem runAttempts_invariant (f : Nat → Nat × AttemptResult) :
    ∀ (fuel idx : Nat) (b : Breaker),
      (runAttempts f fuel idx b).failureReports ≤ 1
    ∧ (runAttempts f fuel idx b).successReports ≤ 1
    ∧ (∀ v, (runAttempts f fuel idx b).result = .ok v →
        (runAttempts f fuel idx b).failureReports = 0
      ∧ (runAttempts f fuel idx b).successReports = 1)
    ∧ (∀ e, (runAttempts f fuel idx b).result = .err e → e = unavailableErr) := by
  intro fuel
  induction fuel with
  | zero =>
    intro idx b
    refine ⟨by simp [runAttempts], by simp [runAttempts], ?_, ?_⟩
    · intro v h
      simp only [runAttempts] at h
      cases h
    · intro e h
      simp only [runAttempts] at h
      cases h
  | succ n ih =>
    intro idx b
    rcases hf : f idx with ⟨u, r⟩
    by_cases hsuc : ∃ v, r = .success v
    · obtain ⟨v, rfl⟩ := hsuc
      rw [runAttempts_success f n idx b u v hf]
      refine ⟨by simp, by simp, ?_, ?_⟩
      · intro w h
        exact ⟨rfl, rfl⟩
      · intro e h
        cases h
    · by_cases hjson : r = .jsonError
      · subst hjson
        rw [runAttempts_jsonError f n idx b u hf]
        refine ⟨by simp, by simp, ?_, ?_⟩
        · intro w h
          cases h
        · intro e h
          cases h
          rfl
      · have hns : ∀ v, r ≠ .success v := fun v h => hsuc ⟨v, h⟩
        by_cases hc : transient r = true ∧ ¬ MAX_RETRIES < idx
        · rw [runAttempts_retry f n idx b u r hf hc.1 hc.2]
          exact ih (idx + 1) (finallyStep b)
        · have h' : transient r = false ∨ MAX_RETRIES < idx := by
            by_cases ht : transient r = true
            · right
              by_contra hlt
              exact hc ⟨ht, hlt⟩
            · left
              cases htv : transient r with
              | false => rfl
              | true => exact absurd htv ht
          rw [runAttempts_final f n idx b u r hf hns hjson h']
          refine ⟨by simp, by simp, ?_, ?_⟩
          · intro w h
            cases h
          · intro e h
            cases h
            rfl

theorem gate_rejected_shape (b : Breaker) (ts : Nat) (e : UErr)
    (h : (gate b ts).2 = .rejected e) :
    e.statusCode = 503 ∧ e.reason ≠ .unavailable := by
  unfold gate halfOpenGate at h
  split_ifs at h <;> simp_all <;> (rw [← h]; exact ⟨rfl, by intro hx; cases hx⟩)

/-- Claim C8 counterexample: a call on the fresh CLOSED breaker whose
first attempt is an ok response with an unparsable body (res.json()
rejects after the success bookkeeping of lines 238-242 has run) reports
both outcomes to the breaker — one success bookkeeping run and one
recordFailure — refuting the claim that each logical call reports at
most one outcome. -/
theorem claim_C8_counterexample :
    (upstreamCall initBreaker 0 (fun _ => (5, .jsonError))).successReports = 1
  ∧ (upstreamCall initBreaker 0 (fun _ => (5, .jsonError))).failureReports = 1
  ∧ ¬ ((upstreamCall initBreaker 0 (fun _ => (5, .jsonError))).failureReports
        + (upstreamCall initBreaker 0 (fun _ => (5, .jsonError))).successReports ≤ 1) := by
  decide

/-- Claim C8 (amended): the failure and success bookkeeping each run at
most once per logical upstream call — recordFailure never runs once per
retry attempt; a call that returns a payload recorded no failure and
exactly one success; a call admitted by the gate whose three attempts
all fail transiently records exactly one failure (at retry exhaustion)
and no success.  The two bounds hold separately, not jointly: when an ok
response's body fails to parse, the success bookkeeping runs and
recordFailure then also runs in the same call. -/
theorem claim_C8 (b : Breaker) (ts : Nat) (f : Nat → Nat × AttemptResult) :
    (upstreamCall b ts f).failureReports ≤ 1
  ∧ (upstreamCall b ts f).successReports ≤ 1
  ∧ (∀ v, (upstreamCall b ts f).result = .ok v →
      (upstreamCall b ts f).failureReports = 0
    ∧ (upstreamCall b ts f).successReports = 1)
  ∧ ((gate b ts).2 = .proceed →
      transient (f 1).2 = true → transient (f 2).2 = true → transient (f 3).2 = true →
      (upstreamCall b ts f).failureReports = 1
    ∧ (upstreamCall b ts f).successReports = 0) := by
  rcases hg : gate b ts with ⟨b1, o⟩
  cases o with
  | rejected e =>
    have e0 := upstreamCall_of_rejected b b1 ts f e hg
    rw [e0]
    refine ⟨by simp, by simp, ?_, ?_⟩
    · intro v h
      cases h
    · intro hpr
      simp at hpr
  | proceed =>
    have e0 := upstreamCall_of_proceed b b1 ts f hg
    rw [e0]
    have inv := runAttempts_invariant f (MAX_RETRIES + 1) 1 b1
    refine ⟨inv.1, inv.2.1, inv.2.2.1, ?_⟩
    intro _ h1 h2 h3
    rcases hf1 : f 1 with ⟨u1, r1⟩
    rcases hf2 : f 2 with ⟨u2, r2⟩
    rcases hf3 : f 3 with ⟨u3, r3⟩
    rw [hf1] at h1
    rw [hf2] at h2
    rw [hf3] at h3
    have e1 : runAttempts f (MAX_RETRIES + 1) 1 b1 =
        { breaker := (runAttempts f 2 2 (finallyStep b1)).breaker
          result := (runAttempts f 2 2 (finallyStep b1)).result
          delays := (100 * BACKOFF_FACTOR ^ (1 - 1)) :: (runAttempts f 2 2 (finallyStep b1)).delays
          failureReports := (runAttempts f 2 2 (finallyStep b1)).failureReports
          successReports := (runAttempts f 2 2 (finallyStep b1)).successReports
          networkAttempts := (runAttempts f 2 2 (finallyStep b1)).networkAttempts + 1 } :=
      runAttempts_retry f 2 1 b1 u1 r1 hf1 h1 (by decide)
    have e2 : runAttempts f 2 2 (finallyStep b1) =
        { breaker := (runAttempts f 1 3 (finallyStep (finallyStep b1))).breaker
          result := (runAttempts f 1 3 (finallyStep (finallyStep b1))).result
          delays := (100 * BACKOFF_FACTOR ^ (2 - 1))
            :: (runAttempts f 1 3 (finallyStep (finallyStep b1))).delays
          failureReports := (runAttempts f 1 3 (finallyStep (finallyStep b1))).failureReports
          successReports := (runAttempts f 1 3 (finallyStep (finallyStep b1))).successReports
          networkAttempts := (runAttempts f 1 3 (finallyStep (finallyStep b1))).networkAttempts + 1 } :=
      runAttempts_retry f 1 2 (finallyStep b1) u2 r2 hf2 h2 (by decide)
    have hns3 : ∀ w, r3 ≠ .success w := by
      intro w hw
      rw [hw] at h3
      cases h3
    have hnj3 : r3 ≠ .jsonError := by
      intro hw
      rw [hw] at h3
      cases h3
    have e3 : runAttempts f 1 3 (finallyStep (finallyStep b1)) =
        { breaker := finallyStep (onFinalFailure (finallyStep (finallyStep b1)) u3)
          result := .err unavailableErr
          delays := []
          failureReports := 1
          successReports := 0
          networkAttempts := 1 } :=
      runAttempts_final f 0 3 (finallyStep (finallyStep b1)) u3 r3 hf3 hns3 hnj3
        (Or.inr (by decide))
    rw [e1, e2, e3]
    exact ⟨rfl, rfl⟩

/-- Witness for claim C8: the closed breaker admits the call, all three
attempts time out, and exactly one failure and no success is reported. -/
theorem claim_C8_witness :
    (gate initBreaker 0).2 = .proceed
  ∧ transient ((fun _ : Nat => ((5 : Nat), AttemptResult.timeoutAbort)) 1).2 = true
  ∧ (upstreamCall initBreaker 0 (fun _ => (5, .timeoutAbort))).failureReports = 1
  ∧ (upstreamCall initBreaker 0 (fun _ => (5, .timeoutAbort))).successReports = 0 :=
  ⟨by decide, by decide,
    (claim_C8 initBreaker 0 (fun _ => (5, .timeoutAbort))).2.2.2
      (by decide) (by decide) (by decide) (by decide)⟩

/-- Claim C10: every error thrown by upstream() is a serviceUnavailable
error with statusCode 503 carrying a Retry-After value; an error thrown
from the retry loop (reason unavailable — permanent failure or retry
exhaustion, in any breaker state) always carries Retry-After
Math.ceil(OPEN_COOLDOWN_MS/1000) = 30 rather than a value derived from
the remaining cooldown; in particular a permanent HTTP 400 upstream
response is surfaced as a 503 with Retry-After 30, never with its
original status code. -/
theorem claim_C10 (b : Breaker) (ts : Nat) (f : Nat → Nat × AttemptResult) (e : UErr)
    (h : (upstreamCall b ts f).result = .err e) :
    e.statusCode = 503
  ∧ (e.reason = .unavailable → e.retryAfter = 30)
  ∧ ∀ u : Nat,
      (upstreamCall initBreaker 0 (fun _ => (u, .httpError 400))).result
        = .err ⟨503, 30, .unavailable⟩ := by
  have third : ∀ u : Nat,
      (upstreamCall initBreaker 0 (fun _ => (u, .httpError 400))).result
        = .err ⟨503, 30, .unavailable⟩ := by
    intro u
    have hg := gate_closed initBreaker 0 rfl
    have e0 := upstreamCall_of_proceed initBreaker initBreaker 0
      (fun _ => (u, .httpError 400)) hg
    have e1 : runAttempts (fun _ => (u, .httpError 400)) (MAX_RETRIES + 1) 1 initBreaker =
        { breaker := finallyStep (onFinalFailure initBreaker u)
          result := .err unavailableErr
          delays := []
          failureReports := 1
          successReports := 0
          networkAttempts := 1 } :=
      runAttempts_final _ 2 1 initBreaker u (.httpError 400) rfl
        (by intro w hw; cases hw) (by intro hw; cases hw) (Or.inl rfl)
    rw [e0, e1]
    rfl
  rcases hg : gate b ts with ⟨b1, o⟩
  cases o with
  | rejected e2 =>
    have e0 := upstreamCall_of_rejected b b1 ts f e2 hg
    rw [e0] at h
    have he : e2 = e := by cases h; rfl
    subst he
    have shape := gate_rejected_shape b ts e2 (by rw [hg])
    exact ⟨shape.1, fun hre => absurd hre shape.2, third⟩
  | proceed =>
    have e0 := upstreamCall_of_proceed b b1 ts f hg
    rw [e0] at h
    have inv := (runAttempts_invariant f (MAX_RETRIES + 1) 1 b1).2.2.2 e h
    rw [inv]
    exact ⟨rfl, fun _ => by decide, third⟩

/-- Witness for claim C10: a permanent HTTP 400 on the closed breaker
yields the serviceUnavailable error, which has statusCode 503 and
Retry-After 30. -/
theorem claim_C10_witness :
    (upstreamCall initBreaker 0 (fun _ => (0, .httpError 400))).result = .err unavailableErr
  ∧ unavailableErr.statusCode = 503
  ∧ (unavailableErr.reason = .unavailable → unavailableErr.retryAfter = 30)
  ∧ ∀ u : Nat,
      (upstreamCall initBreaker 0 (fun _ => (u, .httpError 400))).result
        = .err ⟨503, 30, .unavailable⟩ :=
  ⟨by decide,
    claim_C10 initBreaker 0 (fun _ => (0, .httpError 400)) unavailableErr (by decide)⟩

theorem chunkAux_flatten :
    ∀ (fuel : Nat) (l : List Nat), l.length ≤ fuel → (chunkAux fuel l).flatten = l := by
  intro fuel
  induction fuel with
  | zero =>
    intro l h
    cases l with
    | nil => rfl
    | cons x xs => simp at h
  | succ n ih =>
    intro l h
    cases l with
    | nil => rfl
    | cons x xs =>
      simp only [chunkAux, List.flatten_cons]
      rw [ih]
      · exact List.take_append_drop _ _
      · simp only [List.length_drop, List.length_cons, smallEventSize] at h ⊢
        omega

theorem chunkAux_count :
    ∀ (fuel : Nat) (l : List Nat), l.length ≤ fuel →
      (chunkAux fuel l).length = (l.length + 49) / 50 := by
  intro fuel
  induction fuel with
  | zero =>
    intro l h
    cases l with
    | nil => decide
    | cons x xs => simp at h
  | succ n ih =>
    intro l h
    cases l with
    | nil => simp [chunkAux]
    | cons x xs =>
      simp only [chunkAux, List.length_cons]
      rw [ih ((x :: xs).drop smallEventSize)
        (by simp only [List.length_drop, List.length_cons, smallEventSize] at h ⊢; omega)]
      simp only [List.length_drop, List.length_cons, smallEventSize]
      omega

theorem chunkAux_mem :
    ∀ (fuel : Nat) (l : List Nat) (c : List Nat), c ∈ chunkAux fuel l →
      c.length ≤ smallEventSize ∧ c ≠ [] := by
  intro fuel
  induction fuel with
  | zero =>
    intro l c hc
    cases l with
    | nil => cases hc
    | cons x xs => cases hc
  | succ n ih =>
    intro l c hc
    cases l with
    | nil => cases hc
    | cons x xs =>
      simp only [chunkAux] at hc
      rcases List.mem_cons.mp hc with h | h
      · subst h
        constructor
        · simp [List.length_take]
        · intro hnil
          rcases List.take_eq_nil_iff.mp hnil with h0 | h0
          · simp [smallEventSize] at h0
          · cases h0
      · exact ih _ c h

theorem chunkAux_map_length :
    ∀ (fuel : Nat) (l : List Nat),
      (chunkAux fuel l).map List.length = lenChunks fuel l.length := by
  intro fuel
  induction fuel with
  | zero =>
    intro l
    cases l with
    | nil => rfl
    | cons x xs => rfl
  | succ n ih =>
    intro l
    cases l with
    | nil => rfl
    | cons x xs =>
      simp only [chunkAux, List.map_cons, List.length_cons, lenChunks]
      congr 1
      · simp [List.length_take, Nat.min_comm]
      · rw [ih]
        simp [List.length_drop]

theorem allChunks_ok (g : List Nat → List (Option Nat)) :
    ∀ cs : List (List Nat), allChunks (fun c => .ok (g c)) cs = .ok (cs.map g) := by
  intro cs
  induction cs with
  | nil => rfl
  | cons c cs ih => simp only [allChunks, ih, List.map_cons]

theorem allChunks_error :
    ∀ (cs : List (List Nat)) (respond : List Nat → Except UErr (List (Option Nat)))
      (c : List Nat) (er : UErr), c ∈ cs → respond c = .error er →
      ∃ er2, allChunks respond cs = .error er2 := by
  intro cs respond
  induction cs with
  | nil =>
    intro c er hc
    cases hc
  | cons d cs ih =>
    intro c er hc he
    rcases List.mem_cons.mp hc with h | h
    · subst h
      exact ⟨er, by simp only [allChunks, he]⟩
    · cases hd : respond d with
      | error e2 => exact ⟨e2, by simp only [allChunks, hd]⟩
      | ok r =>
        obtain ⟨er2, h2⟩ := ih c er h he
        exact ⟨er2, by simp only [allChunks, hd, h2]⟩

/-- Claim C5: for more than smallEventSize identifiers the route
partitions them into ceil(n/50) chunks of size at most 50 (none empty),
the concatenation of the chunks is the input list (relative order
preserved within and across chunks), 120 identifiers yield chunk sizes
[50, 50, 20] (exactly 3 batched calls), and when every chunk call
resolves the route returns the concatenation of the chunk responses
with falsy entries dropped. -/
theorem claim_C5 (events : List Nat) (h : smallEventSize < events.length) :
    (chunk50 events).length = (events.length + 49) / 50
  ∧ (∀ c ∈ chunk50 events, c.length ≤ smallEventSize ∧ c ≠ [])
  ∧ (chunk50 events).flatten = events
  ∧ (events.length = 120 → (chunk50 events).map List.length = [50, 50, 20])
  ∧ (∀ g : List Nat → List (Option Nat),
      getEventsLarge events (fun c => .ok (g c)) =
        .ok ((((chunk50 events).map g).flatten).filterMap id)) := by
  refine ⟨?_, ?_, ?_, ?_, ?_⟩
  · exact chunkAux_count events.length events le_rfl
  · intro c hc
    exact chunkAux_mem events.length events c hc
  · exact chunkAux_flatten events.length events le_rfl
  · intro h120
    unfold chunk50
    rw [chunkAux_map_length events.length events, h120]
    decide
  · intro g
    unfold getEventsLarge
    rw [allChunks_ok g (chunk50 events)]

/-- Witness for claim C5 on the 120 identifiers 0..119. -/
theorem claim_C5_witness :
    smallEventSize < (List.range 120).length
  ∧ ((chunk50 (List.range 120)).length = ((List.range 120).length + 49) / 50
  ∧ (∀ c ∈ chunk50 (List.range 120), c.length ≤ smallEventSize ∧ c ≠ [])
  ∧ (chunk50 (List.range 120)).flatten = List.range 120
  ∧ ((List.range 120).length = 120 →
      (chunk50 (List.range 120)).map List.length = [50, 50, 20])
  ∧ (∀ g : List Nat → List (Option Nat),
      getEventsLarge (List.range 120) (fun c => .ok (g c)) =
        .ok ((((chunk50 (List.range 120)).map g).flatten).filterMap id))) :=
  ⟨by decide, claim_C5 (List.range 120) (by decide)⟩

theorem except_toOption_eq_some (r : Except UErr Nat) (v : Nat) :
    r.toOption = some v ↔ r = .ok v := by
  cases r with
  | error e =>
    simp [Except.toOption]
  | ok w =>
    simp [Except.toOption]

/-- Claim C6: for at most smallEventSize identifiers the route issues one
call per identifier; the result is exactly the list of payloads of the
calls that resolved, in input order (a rejection of one call does not
reject the aggregation — the aggregate is total and simply omits failed
items); concretely, input [1, 2, 3] with item 2 failing yields the
resolved payloads of items 1 and 3 only. -/
theorem claim_C6 (events : List Nat) (call1 : Nat → Except UErr Nat) :
    getEventsSmall events call1 = events.filterMap (fun e => (call1 e).toOption)
  ∧ (∀ v, v ∈ getEventsSmall events call1 ↔ ∃ e ∈ events, call1 e = .ok v)
  ∧ (∀ (f : Nat → Except UErr Nat) (a c : Nat) (er : UErr),
      f 1 = .ok a → f 2 = .error er → f 3 = .ok c →
      getEventsSmall [1, 2, 3] f = [a, c]) := by
  refine ⟨?_, ?_, ?_⟩
  · unfold getEventsSmall
    rw [List.filterMap_map]
    rfl
  · intro v
    unfold getEventsSmall
    rw [List.filterMap_map, List.mem_filterMap]
    constructor
    · rintro ⟨e, he, hv⟩
      exact ⟨e, he, (except_toOption_eq_some (call1 e) v).mp hv⟩
    · rintro ⟨e, he, hv⟩
      exact ⟨e, he, (except_toOption_eq_some (call1 e) v).mpr hv⟩
  · intro f a c er h1 h2 h3
    unfold getEventsSmall
    simp [h1, h2, h3, Except.toOption]

/-- Witness for claim C6: identifiers [1, 2, 3] where item 2 rejects and
items 1 and 3 resolve to 10 and 30. -/
theorem claim_C6_witness :
    getEventsSmall [1, 2, 3]
      (fun e => if e = 2 then .error unavailableErr else .ok (10 * e)) = [10, 30] :=
  (claim_C6 [1, 2, 3]
      (fun e => if e = 2 then .error unavailableErr else .ok (10 * e))).2.2
    (fun e => if e = 2 then .error unavailableErr else .ok (10 * e))
    10 30 unavailableErr rfl rfl rfl

/-- Claim C7 counterexample: 51 identifiers are split into chunks
[0..49] and [50]; the first chunk call resolves with all 50 payloads but
the second chunk call rejects, and the whole aggregation rejects
(Promise.all) instead of returning the 50 successful items — so on the
chunked path an individual call failure is not swallowed. -/
theorem claim_C7_counterexample :
    chunk50 (List.range 51) = [List.range 50, [50]]
  ∧ (fun c => if c.length = smallEventSize
        then Except.ok (c.map some) else Except.error unavailableErr)
      (List.range 50) = Except.ok ((List.range 50).map some)
  ∧ getEventsLarge (List.range 51)
      (fun c => if c.length = smallEventSize
        then Except.ok (c.map some) else Except.error unavailableErr)
      = Except.error unavailableErr := by
  refine ⟨by decide, rfl, ?_⟩
  rfl

/-- Claim C7 (amended): on the per-item path (at most 50 identifiers)
individual failures are swallowed — the aggregation is total, every
successful payload is kept and failed items are omitted; on the chunked
path (more than 50 identifiers) only falsy entries of successful chunk
responses are dropped, while the failure of any single chunk call makes
the whole aggregation fail (Promise.all rejects) instead of returning
the remaining successful items. -/
theorem claim_C7 (events : List Nat) (call1 : Nat → Except UErr Nat)
    (respond : List Nat → Except UErr (List (Option Nat))) :
    (∀ e v, e ∈ events → call1 e = .ok v → v ∈ getEventsSmall events call1)
  ∧ (∀ v, v ∈ getEventsSmall events call1 → ∃ e ∈ events, call1 e = .ok v)
  ∧ (∀ (c : List Nat) (er : UErr), c ∈ chunk50 events → respond c = .error er →
      ∃ er2, getEventsLarge events respond = .error er2) := by
  refine ⟨?_, ?_, ?_⟩
  · intro e v he hv
    unfold getEventsSmall
    rw [List.filterMap_map, List.mem_filterMap]
    exact ⟨e, he, (except_toOption_eq_some (call1 e) v).mpr hv⟩
  · intro v hv
    unfold getEventsSmall at hv
    rw [List.filterMap_map, List.mem_filterMap] at hv
    obtain ⟨e, he, hv⟩ := hv
    exact ⟨e, he, (except_toOption_eq_some (call1 e) v).mp hv⟩
  · intro c er hc he
    obtain ⟨er2, h2⟩ := allChunks_error (chunk50 events) respond c er hc he
    refine ⟨er2, ?_⟩
    unfold getEventsLarge
    rw [h2]

/-- Witness for claim C7 on 51 identifiers whose singleton second chunk
rejects. -/
theorem claim_C7_witness :
    ∃ er2, getEventsLarge (List.range 51)
      (fun c => if c.length = smallEventSize
        then Except.ok (c.map some) else Except.error unavailableErr)
      = Except.error er2 :=
  (claim_C7 (List.range 51) (fun e => .ok e)
      (fun c => if c.length = smallEventSize
        then Except.ok (c.map some) else Except.error unavailableErr)).2.2
    [50] unavailableErr (by decide) rfl

/-- Claim C9 (refuted by the code): the probeInFlight flag is meant to
keep at most one HALF_OPEN probe outstanding, but the per-attempt
finally clause clears it while a probe call is still mid-retry.  In this
trace: three failures at t = 70000 open the breaker until 100000; call A
at t = 100000 passes the gate as the probe (probeInFlight becomes true,
nextProbeAt becomes 105000); A's attempts 1 and 2 fail transiently and
each attempt's finally clause (finallyStep) clears probeInFlight while A
is still running; call B arriving at t = 105000 = nextProbeAt then also
passes the gate as a probe, so two probes are outstanding at once. -/
theorem claim_C9_two_probes :
    (gate (recordFailure (recordFailure (recordFailure initBreaker 70000) 70000) 70000)
        100000).2 = .proceed
  ∧ (gate (recordFailure (recordFailure (recordFailure initBreaker 70000) 70000) 70000)
        100000).1.probeInFlight = true
  ∧ (gate (recordFailure (recordFailure (recordFailure initBreaker 70000) 70000) 70000)
        100000).1.state = .HALF_OPEN
  ∧ (finallyStep (finallyStep
      (gate (recordFailure (recordFailure (recordFailure initBreaker 70000) 70000) 70000)
        100000).1)).probeInFlight = false
  ∧ (gate (finallyStep (finallyStep
      (gate (recordFailure (recordFailure (recordFailure initBreaker 70000) 70000) 70000)
        100000).1)) 105000).2 = .proceed
  ∧ (gate (finallyStep (finallyStep
      (gate (recordFailure (recordFailure (recordFailure initBreaker 70000) 70000) 70000)
        100000).1)) 105000).1.probeInFlight = true := by
  decide

end UserEvents
